import Mathlib

/-!
Shallow embedding of `src/components/model_evaluation.py` (class `ModelEvaluation`):
the evaluation-time feature transforms, metric computation, acceptance decision,
report writing and best-model promotion, together with proofs of the spec claims.

Dataframes are modelled as ordered association lists of named columns; the file
system as an association list from paths to byte sequences (newest entry first).
Scores are exact rationals; pandas/sklearn behaviors used by the source
(`Series.map`, `astype(int)`, `get_dummies(drop_first=True)`, the four binary
metrics with `pos_label=1`) are embedded per their documented semantics.
-/

/-- A dataframe cell: a string, an integer, a boolean (pandas `bool` dtype as
produced by `get_dummies`), or a missing value (NaN). -/
inductive Cell where
  | str (s : String)
  | int (n : Int)
  | bool (b : Bool)
  | null
deriving DecidableEq, Repr

/-- A dataframe: ordered list of named columns, each a list of cells (rows). -/
abbrev DataFrame := List (String × List Cell)

deriving instance DecidableEq for Except

/-- Python exceptions relevant to the component.  `myException` is the
repository's `MyException` wrapper (`src.exception.MyException`), which keeps
the original cause. -/
inductive PyErr where
  | keyError (k : String)
  | intCastingNaN
  | valueError (msg : String)
  | fileNotFoundError
  | sameFileError
  | myException (cause : PyErr)
deriving DecidableEq, Repr

/-- `raise MyException(e, sys)` around a computation: any error is re-raised
wrapped in `MyException` with the original cause attached. -/
def wrapMyException {α : Type} (r : Except PyErr α) : Except PyErr α :=
  match r with
  | Except.error e => Except.error (PyErr.myException e)
  | Except.ok a => Except.ok a

/-- Look up a column by name (`df[name]`), first match wins. -/
def getCol : DataFrame → String → Option (List Cell)
  | [], _ => none
  | (q, cells) :: t, name => if q = name then some cells else getCol t name

/-- Replace the cells of an existing column in place (`df[name] = series`). -/
def setCol (df : DataFrame) (name : String) (cells : List Cell) : DataFrame :=
  df.map (fun c => if c.1 = name then (c.1, cells) else c)

/-- `Series.map({'Female': 0, 'Male': 1})` on one cell: unmapped values
(anything other than the two literal strings) become NaN. -/
def mapCellGender (c : Cell) : Cell :=
  match c with
  | Cell.str "Female" => Cell.int 0
  | Cell.str "Male" => Cell.int 1
  | _ => Cell.null

/-- `astype(int)` on one cell: ints stay, bools become 0/1, numeric strings
parse, NaN raises `IntCastingNaNError` and non-numeric strings `ValueError`. -/
def cellAstypeInt (c : Cell) : Except PyErr Int :=
  match c with
  | Cell.int n => Except.ok n
  | Cell.bool b => Except.ok (if b then 1 else 0)
  | Cell.null => Except.error PyErr.intCastingNaN
  | Cell.str s =>
    match s.toInt? with
    | some n => Except.ok n
    | none => Except.error (PyErr.valueError s)

/-- `astype(int)` on a whole series: cast cell by cell, stopping at the first
failing cell. -/
def seriesAstypeInt : List Cell → Except PyErr (List Cell)
  | [] => Except.ok []
  | c :: t =>
    match cellAstypeInt c with
    | Except.error e => Except.error e
    | Except.ok n =>
      match seriesAstypeInt t with
      | Except.error e => Except.error e
      | Except.ok ns => Except.ok (Cell.int n :: ns)

/-- `_map_gender_column`:
`df['Gender'] = df['Gender'].map({'Female': 0, 'Male': 1}).astype(int)`.
A missing `Gender` column raises `KeyError`. -/
def mapGenderColumn (df : DataFrame) : Except PyErr DataFrame :=
  match getCol df "Gender" with
  | none => Except.error (PyErr.keyError "Gender")
  | some cells =>
    match seriesAstypeInt (cells.map mapCellGender) with
    | Except.error e => Except.error e
    | Except.ok newCells => Except.ok (setCol df "Gender" newCells)

/-- `_drop_id_column`: drop the `_id` column if present, no-op otherwise. -/
def dropIdColumn (df : DataFrame) : DataFrame :=
  if (getCol df "_id").isSome then df.filter (fun c => c.1 ≠ "_id") else df

/-- A cell holding a string. -/
def cellIsStr (c : Cell) : Bool :=
  match c with
  | Cell.str _ => true
  | _ => false

/-- A column of pandas `object` dtype, i.e. one holding string values: these
are the columns `pd.get_dummies` encodes (numeric and bool columns pass
through). -/
def colIsObject (cells : List Cell) : Bool := cells.any cellIsStr

/-- The string values appearing in a column, in row order. -/
def strValues (cells : List Cell) : List String :=
  cells.filterMap (fun c =>
    match c with
    | Cell.str s => some s
    | _ => none)

/-- First-occurrence deduplication of a list of strings. -/
def dedupStrAux : List String → List String → List String
  | [], _ => []
  | s :: t, seen => if s ∈ seen then dedupStrAux t seen else s :: dedupStrAux t (s :: seen)

/-- Deduplicate, keeping first occurrences. -/
def dedupStr (l : List String) : List String := dedupStrAux l []

/-- Lexicographic order on code-point sequences: the order Python string
comparison (hence pandas category sorting) uses. -/
def charListLt : List Char → List Char → Bool
  | [], [] => false
  | [], _ :: _ => true
  | _ :: _, [] => false
  | a :: as, b :: bs =>
    if a.val < b.val then true
    else if b.val < a.val then false
    else charListLt as bs

/-- Python `<` on strings. -/
def strLt (a b : String) : Bool := charListLt a.data b.data

/-- Insert into a sorted list of strings. -/
def insertSorted (s : String) : List String → List String
  | [] => [s]
  | t :: ts => if strLt s t then s :: t :: ts else t :: insertSorted s ts

/-- Insertion sort on strings. -/
def sortStrings (l : List String) : List String := l.foldr insertSorted []

/-- The categories `get_dummies` uses for one object column: its distinct
string values, sorted lexicographically. -/
def categoriesOf (cells : List Cell) : List String := sortStrings (dedupStr (strValues cells))

/-- The dummy columns generated for one object column under `drop_first=True`:
one bool column `name_cat` per category except the first. -/
def dummiesFor (name : String) (cells : List Cell) : List (String × List Cell) :=
  ((categoriesOf cells).drop 1).map (fun cat =>
    (name ++ "_" ++ cat, cells.map (fun c => Cell.bool (decide (c = Cell.str cat)))))

/-- `_create_dummy_columns`: `pd.get_dummies(df, drop_first=True)`.
Non-object columns come first in their original order, followed by the dummy
columns of each object column in original column order. -/
def createDummyColumns (df : DataFrame) : DataFrame :=
  df.filter (fun c => !colIsObject c.2) ++
    (df.filter (fun c => colIsObject c.2)).foldr (fun c acc => dummiesFor c.1 c.2 ++ acc) []

/-- The column renaming of `_rename_columns`. -/
def renameColumnName (s : String) : String :=
  if s = "Vehicle_Age_< 1 Year" then "Vehicle_Age_lt_1_Year"
  else if s = "Vehicle_Age_> 2 Years" then "Vehicle_Age_gt_2_Years"
  else s

/-- The three indicator columns `_rename_columns` casts to `int`. -/
def dummyIntCols : List String :=
  ["Vehicle_Age_lt_1_Year", "Vehicle_Age_gt_2_Years", "Vehicle_Damage_Yes"]

/-- The casting loop of `_rename_columns`: `astype('int')` each column whose
name is one of the three listed indicator columns, leaving others alone. -/
def castDummyCols : DataFrame → Except PyErr DataFrame
  | [] => Except.ok []
  | c :: t =>
    match (if c.1 ∈ dummyIntCols then (seriesAstypeInt c.2).map (fun cells => (c.1, cells))
           else Except.ok c) with
    | Except.error e => Except.error e
    | Except.ok c' =>
      match castDummyCols t with
      | Except.error e => Except.error e
      | Except.ok t' => Except.ok (c' :: t')

/-- `_rename_columns`: rename the two vehicle-age dummy columns and
`astype('int')` the three indicator columns that are present. -/
def renameColumns (df : DataFrame) : Except PyErr DataFrame :=
  castDummyCols (df.map (fun c => (renameColumnName c.1, c.2)))

/-- The four feature transforms of `evaluate_model`, in source order:
`_map_gender_column`, `_drop_id_column`, `_create_dummy_columns`,
`_rename_columns`. -/
def transformFeatures (df : DataFrame) : Except PyErr DataFrame :=
  match mapGenderColumn df with
  | Except.error e => Except.error e
  | Except.ok x1 => renameColumns (createDummyColumns (dropIdColumn x1))

/-- Modelled from the spec: `TARGET_COLUMN` comes from `src/constants`, which
is not part of this tree; the spec only requires a fixed binary target column
name, and none of the claims depends on its exact value.  The repository's
dataset uses `Response`. -/
def TARGET_COLUMN : String := "Response"

/-- `df.drop(name, axis=1)`: remove the column, `KeyError` if absent. -/
def dropColumnE (df : DataFrame) (name : String) : Except PyErr DataFrame :=
  if (getCol df name).isSome then Except.ok (df.filter (fun c => c.1 ≠ name))
  else Except.error (PyErr.keyError name)

/-- `df[name]` as a fallible lookup (`KeyError` if absent). -/
def getColumnE (df : DataFrame) (name : String) : Except PyErr (List Cell) :=
  match getCol df name with
  | some cells => Except.ok cells
  | none => Except.error (PyErr.keyError name)

/-- Coerce one target cell to an integer class label, as sklearn does when the
series is passed to a metric; missing or string labels are rejected. -/
def cellLabel (c : Cell) : Except PyErr Int :=
  match c with
  | Cell.int n => Except.ok n
  | Cell.bool b => Except.ok (if b then 1 else 0)
  | _ => Except.error (PyErr.valueError "invalid target label")

/-- The target series as integer labels. -/
def labelsOfCells : List Cell → Except PyErr (List Int)
  | [] => Except.ok []
  | c :: t =>
    match cellLabel c with
    | Except.error e => Except.error e
    | Except.ok n =>
      match labelsOfCells t with
      | Except.error e => Except.error e
      | Except.ok ns => Except.ok (n :: ns)

/-- True positives under `pos_label=1`: truth 1, prediction 1. -/
def countTP (y yhat : List Int) : Nat :=
  (y.zip yhat).countP (fun p => p.1 == 1 && p.2 == 1)

/-- False positives: prediction 1, truth not 1. -/
def countFP (y yhat : List Int) : Nat :=
  (y.zip yhat).countP (fun p => p.1 != 1 && p.2 == 1)

/-- False negatives: truth 1, prediction not 1. -/
def countFN (y yhat : List Int) : Nat :=
  (y.zip yhat).countP (fun p => p.1 == 1 && p.2 != 1)

/-- Rows where prediction equals truth. -/
def countMatches (y yhat : List Int) : Nat :=
  (y.zip yhat).countP (fun p => p.1 == p.2)

/-- `sklearn.metrics.f1_score` (binary, `pos_label=1`); an all-zero
denominator yields 0 (sklearn's zero-division value). -/
def f1Score (y yhat : List Int) : ℚ :=
  (2 * countTP y yhat : ℚ) / ((2 * countTP y yhat + countFP y yhat + countFN y yhat : Nat) : ℚ)

/-- `sklearn.metrics.precision_score`. -/
def precisionScore (y yhat : List Int) : ℚ :=
  ((countTP y yhat : Nat) : ℚ) / ((countTP y yhat + countFP y yhat : Nat) : ℚ)

/-- `sklearn.metrics.recall_score`. -/
def recallScore (y yhat : List Int) : ℚ :=
  ((countTP y yhat : Nat) : ℚ) / ((countTP y yhat + countFN y yhat : Nat) : ℚ)

/-- `sklearn.metrics.accuracy_score`. -/
def accuracyScore (y yhat : List Int) : ℚ :=
  ((countMatches y yhat : Nat) : ℚ) / ((y.length : Nat) : ℚ)

/-- sklearn raises `ValueError` when truth and prediction lengths differ. -/
def f1ScoreE (y yhat : List Int) : Except PyErr ℚ :=
  if y.length = yhat.length then Except.ok (f1Score y yhat)
  else Except.error (PyErr.valueError "inconsistent numbers of samples")

/-- Length-checked precision, as the sklearn call. -/
def precisionScoreE (y yhat : List Int) : Except PyErr ℚ :=
  if y.length = yhat.length then Except.ok (precisionScore y yhat)
  else Except.error (PyErr.valueError "inconsistent numbers of samples")

/-- Length-checked recall, as the sklearn call. -/
def recallScoreE (y yhat : List Int) : Except PyErr ℚ :=
  if y.length = yhat.length then Except.ok (recallScore y yhat)
  else Except.error (PyErr.valueError "inconsistent numbers of samples")

/-- Length-checked accuracy, as the sklearn call. -/
def accuracyScoreE (y yhat : List Int) : Except PyErr ℚ :=
  if y.length = yhat.length then Except.ok (accuracyScore y yhat)
  else Except.error (PyErr.valueError "inconsistent numbers of samples")

/-! ### Entities and environment -/

/-- The four scores computed per model (`f1_score`, `precision_score`,
`recall_score`, `accuracy_score`). -/
structure EvaluationMetrics where
  f1 : ℚ
  precision : ℚ
  recall' : ℚ
  accuracy : ℚ
deriving DecidableEq, Repr

/-- The dataclass `EvaluateModelResponse` of the source. -/
structure EvaluateModelResponse where
  trained_model_f1 : ℚ
  trained_model_precision : ℚ
  trained_model_recall : ℚ
  trained_model_accuracy : ℚ
  best_model_f1 : ℚ
  best_model_precision : ℚ
  best_model_recall : ℚ
  best_model_accuracy : ℚ
  is_model_accepted : Bool
  difference : ℚ
deriving DecidableEq, Repr

/-- The nested `evaluation_report` dict of `evaluate_model`: keys
`trained_model` and `best_model` (each f1/precision/recall/accuracy), plus
top-level `improvement` and `model_accepted`. -/
structure EvaluationReport where
  trained_model : EvaluationMetrics
  best_model : EvaluationMetrics
  improvement : ℚ
  model_accepted : Bool
deriving DecidableEq, Repr

/-- `ModelEvaluationConfig` (the fields this component reads). -/
structure ModelEvaluationConfig where
  best_model_path : String
  report_path : String
deriving DecidableEq, Repr

/-- `DataIngestionArtifact` (the field this component reads). -/
structure DataIngestionArtifact where
  test_file_path : String
deriving DecidableEq, Repr

/-- `ModelTrainerArtifact` (the field this component reads). -/
structure ModelTrainerArtifact where
  trained_model_file_path : String
deriving DecidableEq, Repr

/-- `ModelEvaluationArtifact`: the output contract of the component. -/
structure ModelEvaluationArtifact where
  is_model_accepted : Bool
  report_path : String
  best_model_path : String
  trained_model_path : String
deriving DecidableEq, Repr

/-- File contents as a byte sequence. -/
abbrev ByteSeq := List Nat

/-- The file system: an association list from paths to contents, newest
binding first. -/
abbrev FileSys := List (String × ByteSeq)

/-- `os.path.exists` + read: contents of a path, `none` if absent. -/
def fsLookup : FileSys → String → Option ByteSeq
  | [], _ => none
  | (q, b) :: t, p => if q = p then some b else fsLookup t p

/-- Writing a file: the new binding shadows any previous one. -/
def fsWrite (fs : FileSys) (p : String) (b : ByteSeq) : FileSys := (p, b) :: fs

/-- The externally visible writes of one run, in order. -/
inductive EvalEvent where
  | reportWrite (path : String)
  | modelCopy (src dest : String)
deriving DecidableEq, Repr

/-- The collaborators the source delegates to but which live outside this
file's scope: CSV parsing (`pd.read_csv`), model (de)serialization
(`load_object`), the model's own `predict`, and YAML serialization
(`yaml.dump`).  `M` is the type of deserialized model objects. -/
structure PipelineEnv (M : Type) where
  decodeCsv : ByteSeq → Except PyErr DataFrame
  loadObject : ByteSeq → Except PyErr M
  predict : M → DataFrame → Except PyErr (List Int)
  encodeReport : EvaluationReport → ByteSeq

/-- Contents of a path, raising `FileNotFoundError` when absent. -/
def readBytes (b : Option ByteSeq) : Except PyErr ByteSeq :=
  match b with
  | some bytes => Except.ok bytes
  | none => Except.error PyErr.fileNotFoundError

/-! ### The evaluation pipeline -/

/-- The fixed baseline constants of `evaluate_model` (lines 117–120), used
when no best model is available. -/
def baselineMetrics : EvaluationMetrics :=
  { f1 := 0.4358042535618418
    precision := 0.2874067214989923
    recall' := 0.9010416666666666
    accuracy := 0.7132181615902937 }

/-- `get_best_model` applied to the contents of `best_model_path`: a loadable
model only when the path exists with positive size; errors are wrapped in
`MyException`. -/
def getBestModelCore {M : Type} (env : PipelineEnv M) (bestB : Option ByteSeq) :
    Except PyErr (Option M) :=
  wrapMyException
    (match bestB with
     | some b =>
       if b.length > 0 then
         match env.loadObject b with
         | Except.error e => Except.error e
         | Except.ok m => Except.ok (some m)
       else Except.ok none
     | none => Except.ok none)

/-- Lines 96–103 of `evaluate_model`: read and decode the test CSV, split off
the target column, and apply the four feature transforms. -/
def prepareFeaturesAndTarget {M : Type} (env : PipelineEnv M) (csvB : Option ByteSeq) :
    Except PyErr (DataFrame × List Cell) :=
  match readBytes csvB with
  | Except.error e => Except.error e
  | Except.ok bytes =>
    match env.decodeCsv bytes with
    | Except.error e => Except.error e
    | Except.ok test_df =>
      match dropColumnE test_df TARGET_COLUMN with
      | Except.error e => Except.error e
      | Except.ok x0 =>
        match getColumnE test_df TARGET_COLUMN with
        | Except.error e => Except.error e
        | Except.ok yCells =>
          match transformFeatures x0 with
          | Except.error e => Except.error e
          | Except.ok x => Except.ok (x, yCells)

/-- Lines 106–113: load the trained model, predict, and compute its four
metrics (the target labels are coerced at the first metric call). -/
def trainedScores {M : Type} (env : PipelineEnv M) (trainedB : Option ByteSeq)
    (x : DataFrame) (yCells : List Cell) : Except PyErr (List Int × EvaluationMetrics) :=
  match readBytes trainedB with
  | Except.error e => Except.error e
  | Except.ok tb =>
    match env.loadObject tb with
    | Except.error e => Except.error e
    | Except.ok trained_model =>
      match env.predict trained_model x with
      | Except.error e => Except.error e
      | Except.ok y_hat_train =>
        match labelsOfCells yCells with
        | Except.error e => Except.error e
        | Except.ok y =>
          match f1ScoreE y y_hat_train with
          | Except.error e => Except.error e
          | Except.ok tf1 =>
            match precisionScoreE y y_hat_train with
            | Except.error e => Except.error e
            | Except.ok tp =>
              match recallScoreE y y_hat_train with
              | Except.error e => Except.error e
              | Except.ok tr =>
                match accuracyScoreE y y_hat_train with
                | Except.error e => Except.error e
                | Except.ok ta => Except.ok (y, ⟨tf1, tp, tr, ta⟩)

/-- Lines 116–127: metrics of the best model when one is loadable, the fixed
baseline constants otherwise. -/
def bestScores {M : Type} (env : PipelineEnv M) (bestB : Option ByteSeq)
    (x : DataFrame) (y : List Int) : Except PyErr EvaluationMetrics :=
  match getBestModelCore env bestB with
  | Except.error e => Except.error e
  | Except.ok none => Except.ok baselineMetrics
  | Except.ok (some best_model) =>
    match env.predict best_model x with
    | Except.error e => Except.error e
    | Except.ok y_hat_best =>
      match f1ScoreE y y_hat_best with
      | Except.error e => Except.error e
      | Except.ok bf1 =>
        match precisionScoreE y y_hat_best with
        | Except.error e => Except.error e
        | Except.ok bp =>
          match recallScoreE y y_hat_best with
          | Except.error e => Except.error e
          | Except.ok br =>
            match accuracyScoreE y y_hat_best with
            | Except.error e => Except.error e
            | Except.ok ba => Except.ok ⟨bf1, bp, br, ba⟩

/-- Lines 132–148: the report dict, with
`improvement = trained_f1 - best_f1` and `model_accepted = improvement > 0`. -/
def mkReport (tm bm : EvaluationMetrics) : EvaluationReport :=
  { trained_model := tm
    best_model := bm
    improvement := tm.f1 - bm.f1
    model_accepted := decide (tm.f1 - bm.f1 > 0) }

/-- Lines 151–162: the `EvaluateModelResponse` returned by `evaluate_model`. -/
def mkResponse (tm bm : EvaluationMetrics) : EvaluateModelResponse :=
  { trained_model_f1 := tm.f1
    trained_model_precision := tm.precision
    trained_model_recall := tm.recall'
    trained_model_accuracy := tm.accuracy
    best_model_f1 := bm.f1
    best_model_precision := bm.precision
    best_model_recall := bm.recall'
    best_model_accuracy := bm.accuracy
    is_model_accepted := decide (tm.f1 - bm.f1 > 0)
    difference := tm.f1 - bm.f1 }

/-- The pure body of `evaluate_model`, as a function of the contents of the
three input paths (test CSV, trained model, best model). -/
def evalCore {M : Type} (env : PipelineEnv M) (csvB trainedB bestB : Option ByteSeq) :
    Except PyErr (EvaluationReport × EvaluateModelResponse) :=
  match prepareFeaturesAndTarget env csvB with
  | Except.error e => Except.error e
  | Except.ok (x, yCells) =>
    match trainedScores env trainedB x yCells with
    | Except.error e => Except.error e
    | Except.ok (y, tm) =>
      match bestScores env bestB x y with
      | Except.error e => Except.error e
      | Except.ok bm => Except.ok (mkReport tm bm, mkResponse tm bm)

/-- `evaluate_model`: run the pure body on the file-system contents of the
three input paths, then save the report (`_save_evaluation_report`) at
`report_path`; any error is wrapped in `MyException`. -/
def evaluateModel {M : Type} (env : PipelineEnv M) (cfg : ModelEvaluationConfig)
    (dia : DataIngestionArtifact) (mta : ModelTrainerArtifact) (fs : FileSys) :
    Except PyErr (FileSys × List EvalEvent × EvaluateModelResponse) :=
  wrapMyException
    (match evalCore env (fsLookup fs dia.test_file_path)
        (fsLookup fs mta.trained_model_file_path) (fsLookup fs cfg.best_model_path) with
     | Except.error e => Except.error e
     | Except.ok (report, resp) =>
       Except.ok (fsWrite fs cfg.report_path (env.encodeReport report),
         [EvalEvent.reportWrite cfg.report_path], resp))

/-- `shutil.copy(src, dest)`: `SameFileError` when the two paths are the same
file, `FileNotFoundError` when the source is absent, otherwise a byte copy. -/
def shutilCopy (fs : FileSys) (src dest : String) :
    Except PyErr (FileSys × List EvalEvent) :=
  if src = dest then Except.error PyErr.sameFileError
  else
    match fsLookup fs src with
    | none => Except.error PyErr.fileNotFoundError
    | some b => Except.ok (fsWrite fs dest b, [EvalEvent.modelCopy src dest])

/-- `initiate_model_evaluation`: evaluate, copy the trained model over the
best-model path when accepted, and return the `ModelEvaluationArtifact`. -/
def initiateModelEvaluation {M : Type} (env : PipelineEnv M)
    (cfg : ModelEvaluationConfig) (dia : DataIngestionArtifact)
    (mta : ModelTrainerArtifact) (fs : FileSys) :
    Except PyErr (FileSys × List EvalEvent × ModelEvaluationArtifact) :=
  wrapMyException
    (match evaluateModel env cfg dia mta fs with
     | Except.error e => Except.error e
     | Except.ok (fs1, ev1, resp) =>
       match
         (if resp.is_model_accepted then
            shutilCopy fs1 mta.trained_model_file_path cfg.best_model_path
          else Except.ok (fs1, [])) with
       | Except.error e => Except.error e
       | Except.ok (fs2, ev2) =>
         Except.ok (fs2, ev1 ++ ev2,
           { is_model_accepted := resp.is_model_accepted
             report_path := cfg.report_path
             best_model_path := cfg.best_model_path
             trained_model_path := mta.trained_model_file_path }))

/-! ### General lemmas -/

theorem wrapMyException_ok {α : Type} {r : Except PyErr α} {a : α}
    (h : wrapMyException r = Except.ok a) : r = Except.ok a := by
  cases r with
  | error e => simp [wrapMyException] at h
  | ok b => simpa [wrapMyException] using h

theorem wrapMyException_shape {α : Type} (r : Except PyErr α) :
    (∃ e, wrapMyException r = Except.error (PyErr.myException e)) ∨
      ∃ a, wrapMyException r = Except.ok a := by
  cases r with
  | error e => exact Or.inl ⟨e, rfl⟩
  | ok a => exact Or.inr ⟨a, rfl⟩

theorem mapCellGender_cases (c : Cell) :
    mapCellGender c = Cell.int 0 ∨ mapCellGender c = Cell.int 1 ∨
      mapCellGender c = Cell.null := by
  unfold mapCellGender
  split <;> simp

theorem mapCellGender_of_unmapped {c : Cell} (hf : c ≠ Cell.str "Female")
    (hm : c ≠ Cell.str "Male") : mapCellGender c = Cell.null := by
  unfold mapCellGender
  split <;> simp_all

theorem seriesAstypeInt_error_of_null {l : List Cell} (hnull : Cell.null ∈ l)
    (hok : ∀ c ∈ l, c = Cell.null ∨ ∃ n, c = Cell.int n) :
    seriesAstypeInt l = Except.error PyErr.intCastingNaN := by
  induction l with
  | nil => cases hnull
  | cons c t ih =>
    rcases hok c (List.mem_cons_self c t) with hc | ⟨n, hc⟩
    · subst hc; rfl
    · subst hc
      have ht : Cell.null ∈ t := by
        rcases List.mem_cons.mp hnull with h | h
        · simp at h
        · exact h
      have hrec := ih ht (fun x hx => hok x (List.mem_cons_of_mem _ hx))
      simp [seriesAstypeInt, cellAstypeInt, hrec]

theorem mapGenderColumn_error_of_unmapped {df : DataFrame} {cells : List Cell}
    {c : Cell} (hcol : getCol df "Gender" = some cells) (hc : c ∈ cells)
    (hf : c ≠ Cell.str "Female") (hm : c ≠ Cell.str "Male") :
    mapGenderColumn df = Except.error PyErr.intCastingNaN := by
  have hnull : Cell.null ∈ cells.map mapCellGender :=
    List.mem_map.mpr ⟨c, hc, mapCellGender_of_unmapped hf hm⟩
  have hok : ∀ x ∈ cells.map mapCellGender, x = Cell.null ∨ ∃ n, x = Cell.int n := by
    intro x hx
    rcases List.mem_map.mp hx with ⟨a, _, rfl⟩
    rcases mapCellGender_cases a with h | h | h <;> rw [h] <;> simp
  unfold mapGenderColumn
  rw [hcol]
  simp [seriesAstypeInt_error_of_null hnull hok]

theorem fsLookup_write_self (fs : FileSys) (p : String) (b : ByteSeq) :
    fsLookup (fsWrite fs p b) p = some b := by
  simp [fsWrite, fsLookup]

theorem fsLookup_write_ne (fs : FileSys) {p q : String} (b : ByteSeq) (h : p ≠ q) :
    fsLookup (fsWrite fs p b) q = fsLookup fs q := by
  simp [fsWrite, fsLookup, h]

theorem getBestModelCore_unloadable {M : Type} (env : PipelineEnv M)
    {bestB : Option ByteSeq} (h : bestB = none ∨ bestB = some []) :
    getBestModelCore env bestB = Except.ok none := by
  rcases h with rfl | rfl <;> rfl

theorem bestScores_unloadable {M : Type} (env : PipelineEnv M)
    {bestB : Option ByteSeq} (h : bestB = none ∨ bestB = some [])
    (x : DataFrame) (y : List Int) :
    bestScores env bestB x y = Except.ok baselineMetrics := by
  unfold bestScores
  rw [getBestModelCore_unloadable env h]

theorem evalCore_ok_inv {M : Type} {env : PipelineEnv M}
    {csvB trainedB bestB : Option ByteSeq}
    {pr : EvaluationReport × EvaluateModelResponse}
    (h : evalCore env csvB trainedB bestB = Except.ok pr) :
    ∃ tm bm, pr = (mkReport tm bm, mkResponse tm bm) ∧
      ((bestB = none ∨ bestB = some []) → bm = baselineMetrics) := by
  unfold evalCore at h
  cases hp : prepareFeaturesAndTarget env csvB with
  | error e => rw [hp] at h; exact absurd h (by simp)
  | ok xy =>
    rw [hp] at h
    obtain ⟨x, yCells⟩ := xy
    dsimp only at h
    cases hts : trainedScores env trainedB x yCells with
    | error e => rw [hts] at h; exact absurd h (by simp)
    | ok ytm =>
      rw [hts] at h
      obtain ⟨y, tm⟩ := ytm
      dsimp only at h
      cases hbs : bestScores env bestB x y with
      | error e => rw [hbs] at h; exact absurd h (by simp)
      | ok bm =>
        rw [hbs] at h
        dsimp only at h
        injection h with h2
        refine ⟨tm, bm, h2.symm, ?_⟩
        intro hb
        rw [bestScores_unloadable env hb x y] at hbs
        injection hbs with h3
        exact h3.symm

theorem evaluateModel_ok_inv {M : Type} {env : PipelineEnv M}
    {cfg : ModelEvaluationConfig} {dia : DataIngestionArtifact}
    {mta : ModelTrainerArtifact} {fs : FileSys}
    {out : FileSys × List EvalEvent × EvaluateModelResponse}
    (h : evaluateModel env cfg dia mta fs = Except.ok out) :
    ∃ tm bm,
      out = (fsWrite fs cfg.report_path (env.encodeReport (mkReport tm bm)),
          [EvalEvent.reportWrite cfg.report_path], mkResponse tm bm) ∧
        ((fsLookup fs cfg.best_model_path = none ∨
            fsLookup fs cfg.best_model_path = some []) → bm = baselineMetrics) := by
  have h' := wrapMyException_ok h
  cases hec : evalCore env (fsLookup fs dia.test_file_path)
      (fsLookup fs mta.trained_model_file_path) (fsLookup fs cfg.best_model_path) with
  | error e => rw [hec] at h'; exact absurd h' (by simp)
  | ok pr =>
    rw [hec] at h'
    obtain ⟨report, resp⟩ := pr
    dsimp only at h'
    obtain ⟨tm, bm, hpr, hbase⟩ := evalCore_ok_inv hec
    obtain ⟨hrep, hresp⟩ := Prod.mk.injEq .. ▸ hpr
    injection h' with h2
    refine ⟨tm, bm, ?_, hbase⟩
    rw [← h2, hrep, hresp]

/-! ### C4: out-of-set Gender values -/

/-- C4 counterexample: on a concrete frame whose Gender value is `"Other"`,
the Gender-mapping step does not silently produce a null row — it raises
(`astype(int)` fails on the unmapped NaN), so the claimed silent-null
behavior is false at this input. -/
theorem c4_gender_unmapped_not_silent_cex :
    mapGenderColumn [("Gender", [Cell.str "Other"])] =
      Except.error PyErr.intCastingNaN := by decide

/-- C4 amended: for every dataset with a Gender value outside
{"Female", "Male"}, the `.map` sub-step produces a missing value for that
row, but the `astype(int)` call in the same Gender-mapping statement then
raises `IntCastingNaNError`, so the step fails with an error rather than
silently yielding a null. -/
theorem c4_gender_unmapped_maps_to_null_then_raises
    (df : DataFrame) (cells : List Cell) (c : Cell)
    (hcol : getCol df "Gender" = some cells) (hc : c ∈ cells)
    (hf : c ≠ Cell.str "Female") (hm : c ≠ Cell.str "Male") :
    mapCellGender c = Cell.null ∧
      mapGenderColumn df = Except.error PyErr.intCastingNaN :=
  ⟨mapCellGender_of_unmapped hf hm,
    mapGenderColumn_error_of_unmapped hcol hc hf hm⟩

/-- C4 witness: the amended theorem applied to a concrete frame holding the
Gender value `"Other"`. -/
theorem c4_witness :
    mapCellGender (Cell.str "Other") = Cell.null ∧
      mapGenderColumn [("Gender", [Cell.str "Other"]), ("Age", [Cell.int 3])] =
        Except.error PyErr.intCastingNaN :=
  c4_gender_unmapped_maps_to_null_then_raises
    [("Gender", [Cell.str "Other"]), ("Age", [Cell.int 3])]
    [Cell.str "Other"] (Cell.str "Other")
    (by decide) (by decide) (by decide) (by decide)

/-! ### C5: the transform is not idempotent -/

/-- C5 counterexample: transforming a raw one-row frame yields a normalized
frame, and applying the four-step transform to that already-normalized frame
is not a no-op: it raises (the Gender re-mapping turns the integers into
NaN and `astype(int)` fails). -/
theorem c5_transform_not_idempotent_cex :
    transformFeatures [("Gender", [Cell.str "Female"]), ("Age", [Cell.int 35])] =
        Except.ok [("Gender", [Cell.int 0]), ("Age", [Cell.int 35])] ∧
      transformFeatures [("Gender", [Cell.int 0]), ("Age", [Cell.int 35])] =
        Except.error PyErr.intCastingNaN := by decide

/-- C5 amended: for every already-normalized frame with at least one row
(Gender already mapped to integers), applying the four-step transform a
second time is not a no-op: it fails with `IntCastingNaNError`, because the
Gender re-mapping sends every integer to a missing value and the integer
cast then raises. -/
theorem c5_transform_second_application_fails
    (df : DataFrame) (cells : List Cell)
    (hcol : getCol df "Gender" = some cells) (hne : cells ≠ [])
    (hint : ∀ c ∈ cells, ∃ n, c = Cell.int n) :
    transformFeatures df = Except.error PyErr.intCastingNaN := by
  obtain ⟨c, hc⟩ : ∃ c, c ∈ cells := by
    cases cells with
    | nil => exact absurd rfl hne
    | cons a t => exact ⟨a, List.mem_cons_self a t⟩
  obtain ⟨n, rfl⟩ := hint c hc
  have h := mapGenderColumn_error_of_unmapped hcol hc (by simp) (by simp)
  unfold transformFeatures
  rw [h]

/-- C5 witness: the amended theorem applied to a concrete normalized frame. -/
theorem c5_witness :
    transformFeatures [("Gender", [Cell.int 0]), ("Age", [Cell.int 35])] =
      Except.error PyErr.intCastingNaN :=
  c5_transform_second_application_fails
    [("Gender", [Cell.int 0]), ("Age", [Cell.int 35])] [Cell.int 0]
    (by decide) (by decide)
    (by intro c hc; simp at hc; exact ⟨0, hc⟩)

/-! ### C6: the four transforms run in a fixed order -/

/-- A representative raw evaluation frame: identifier, Gender, a numeric
column, and the two vehicle categorical columns. -/
def demoRaw : DataFrame :=
  [("_id", [Cell.int 1, Cell.int 2, Cell.int 3]),
   ("Gender", [Cell.str "Male", Cell.str "Female", Cell.str "Male"]),
   ("Age", [Cell.int 10, Cell.int 20, Cell.int 30]),
   ("Vehicle_Age", [Cell.str "< 1 Year", Cell.str "1-2 Year", Cell.str "> 2 Years"]),
   ("Vehicle_Damage", [Cell.str "Yes", Cell.str "No", Cell.str "Yes"])]

/-- What the four transforms produce on `demoRaw`: Gender mapped to 0/1,
`_id` dropped, the categorical columns one-hot encoded with the first
category dropped, the two vehicle-age columns renamed, and the three
indicator columns cast to integers. -/
def demoNormalized : DataFrame :=
  [("Gender", [Cell.int 1, Cell.int 0, Cell.int 1]),
   ("Age", [Cell.int 10, Cell.int 20, Cell.int 30]),
   ("Vehicle_Age_lt_1_Year", [Cell.int 1, Cell.int 0, Cell.int 0]),
   ("Vehicle_Age_gt_2_Years", [Cell.int 0, Cell.int 0, Cell.int 1]),
   ("Vehicle_Damage_Yes", [Cell.int 1, Cell.int 0, Cell.int 1])]

/-- C6: the Feature Normalizer applies exactly the four transforms in the
fixed source order — Gender mapping, then identifier drop, then one-hot
encoding with the first category dropped, then the renames and integer
coercions — and on a representative frame this produces precisely the
expected normalized frame. -/
theorem c6_transform_fixed_order :
    (∀ df : DataFrame, transformFeatures df =
        (mapGenderColumn df).bind fun x1 =>
          renameColumns (createDummyColumns (dropIdColumn x1))) ∧
      transformFeatures demoRaw = Except.ok demoNormalized := by
  refine ⟨fun df => ?_, by decide⟩
  unfold transformFeatures
  cases mapGenderColumn df <;> rfl

theorem wrapMyException_error {α : Type} {r : Except PyErr α} {e : PyErr}
    (h : wrapMyException r = Except.error e) : ∃ c, e = PyErr.myException c := by
  cases r with
  | error e0 =>
    refine ⟨e0, ?_⟩
    have h' : Except.error (α := α) (PyErr.myException e0) = Except.error e := h
    injection h' with h2
    exact h2.symm
  | ok a => simp [wrapMyException] at h

theorem shutilCopy_ok_inv {fs fs2 : FileSys} {src dest : String}
    {evs : List EvalEvent} (h : shutilCopy fs src dest = Except.ok (fs2, evs)) :
    ∃ b, src ≠ dest ∧ fsLookup fs src = some b ∧ fs2 = fsWrite fs dest b ∧
      evs = [EvalEvent.modelCopy src dest] := by
  unfold shutilCopy at h
  split at h
  · exact absurd h (by simp)
  · next hne =>
    cases hl : fsLookup fs src with
    | none => rw [hl] at h; exact absurd h (by simp)
    | some b =>
      rw [hl] at h
      dsimp only at h
      injection h with h2
      injection h2 with hfs hev
      exact ⟨b, hne, rfl, hfs.symm, hev.symm⟩

/-! ### C1: the acceptance decision is strict -/

/-- C1: for every evaluation run that completes, the acceptance decision is
strict: `is_model_accepted` holds exactly when trained-model f1 minus
best-model f1 is greater than 0, the reported `difference` is that
subtraction, and equal f1 scores yield `is_model_accepted = false`. -/
theorem c1_acceptance_strict {M : Type} (env : PipelineEnv M)
    (cfg : ModelEvaluationConfig) (dia : DataIngestionArtifact)
    (mta : ModelTrainerArtifact) (fs fs' : FileSys) (ev : List EvalEvent)
    (resp : EvaluateModelResponse)
    (h : evaluateModel env cfg dia mta fs = Except.ok (fs', ev, resp)) :
    (resp.is_model_accepted = true ↔
        resp.trained_model_f1 - resp.best_model_f1 > 0) ∧
      resp.difference = resp.trained_model_f1 - resp.best_model_f1 ∧
      (resp.trained_model_f1 = resp.best_model_f1 →
        resp.is_model_accepted = false) := by
  obtain ⟨tm, bm, hout, -⟩ := evaluateModel_ok_inv h
  have hresp : resp = mkResponse tm bm := congrArg (fun t => t.2.2) hout
  subst hresp
  simp only [mkResponse]
  refine ⟨by simp, by trivial, fun he => ?_⟩
  rw [he]
  simp

/-! ### C3: missing or empty best-model artifact -/

/-- C3: when the best-model path is absent from the file system or holds an
empty file, `get_best_model` succeeds with no model, and any completed
evaluation reports exactly the four fixed baseline constants as the
best-model metrics. -/
theorem c3_missing_best_reports_baseline {M : Type} (env : PipelineEnv M)
    (cfg : ModelEvaluationConfig) (dia : DataIngestionArtifact)
    (mta : ModelTrainerArtifact) (fs : FileSys)
    (hb : fsLookup fs cfg.best_model_path = none ∨
      fsLookup fs cfg.best_model_path = some []) :
    getBestModelCore env (fsLookup fs cfg.best_model_path) = Except.ok none ∧
      ∀ fs' ev resp, evaluateModel env cfg dia mta fs = Except.ok (fs', ev, resp) →
        resp.best_model_f1 = 0.4358042535618418 ∧
        resp.best_model_precision = 0.2874067214989923 ∧
        resp.best_model_recall = 0.9010416666666666 ∧
        resp.best_model_accuracy = 0.7132181615902937 := by
  refine ⟨getBestModelCore_unloadable env hb, ?_⟩
  intro fs' ev resp h
  obtain ⟨tm, bm, hout, hbase⟩ := evaluateModel_ok_inv h
  have hbm := hbase hb
  subst hbm
  have hresp : resp = mkResponse tm baselineMetrics := congrArg (fun t => t.2.2) hout
  subst hresp
  exact ⟨rfl, rfl, rfl, rfl⟩

/-! ### C7: the report and its schema -/

/-- C7: every completed run writes, at the configured report path, the
serialized nested report whose `trained_model` and `best_model` entries hold
exactly the four metrics of the returned response, whose `improvement` is the
returned difference and whose `model_accepted` is the returned decision —
shadowing (overwriting) whatever was at that path before. -/
theorem c7_report_schema {M : Type} (env : PipelineEnv M)
    (cfg : ModelEvaluationConfig) (dia : DataIngestionArtifact)
    (mta : ModelTrainerArtifact) (fs fs' : FileSys) (ev : List EvalEvent)
    (resp : EvaluateModelResponse)
    (h : evaluateModel env cfg dia mta fs = Except.ok (fs', ev, resp)) :
    fsLookup fs' cfg.report_path = some (env.encodeReport
      { trained_model := ⟨resp.trained_model_f1, resp.trained_model_precision,
          resp.trained_model_recall, resp.trained_model_accuracy⟩
        best_model := ⟨resp.best_model_f1, resp.best_model_precision,
          resp.best_model_recall, resp.best_model_accuracy⟩
        improvement := resp.difference
        model_accepted := resp.is_model_accepted }) := by
  obtain ⟨tm, bm, hout, -⟩ := evaluateModel_ok_inv h
  have hfs : fs' = fsWrite fs cfg.report_path (env.encodeReport (mkReport tm bm)) :=
    congrArg (fun t => t.1) hout
  have hresp : resp = mkResponse tm bm := congrArg (fun t => t.2.2) hout
  subst hfs
  subst hresp
  rw [fsLookup_write_self]
  cases tm with
  | mk a b c d =>
    cases bm with
    | mk e f g i => rfl

/-! ### C8: failures are wrapped and abort the run -/

/-- C8: every run of the orchestrator either fails with the single wrapping
error type `MyException` carrying its original cause — the error propagating
to the caller with no retry — or succeeds with an artifact; no partial
artifact is ever produced on failure. -/
theorem c8_failures_wrapped_no_partial {M : Type} (env : PipelineEnv M)
    (cfg : ModelEvaluationConfig) (dia : DataIngestionArtifact)
    (mta : ModelTrainerArtifact) (fs : FileSys) :
    (∃ c, initiateModelEvaluation env cfg dia mta fs =
        Except.error (PyErr.myException c)) ∨
      ∃ fs' ev art, initiateModelEvaluation env cfg dia mta fs =
        Except.ok (fs', ev, art) := by
  cases hr : initiateModelEvaluation env cfg dia mta fs with
  | ok a => exact Or.inr ⟨a.1, a.2.1, a.2.2, rfl⟩
  | error e =>
    unfold initiateModelEvaluation at hr
    obtain ⟨c, rfl⟩ := wrapMyException_error hr
    exact Or.inl ⟨c, rfl⟩

/-! ### C9: evaluation is deterministic in its inputs -/

/-- C9: the evaluation outcome — response or error — depends only on the
contents of the three input paths: two file systems agreeing on the test
CSV, trained-model and best-model paths produce identical responses (and
identical errors), whatever else they contain. -/
theorem c9_evaluation_deterministic {M : Type} (env : PipelineEnv M)
    (cfg : ModelEvaluationConfig) (dia : DataIngestionArtifact)
    (mta : ModelTrainerArtifact) (fs1 fs2 : FileSys)
    (h1 : fsLookup fs1 dia.test_file_path = fsLookup fs2 dia.test_file_path)
    (h2 : fsLookup fs1 mta.trained_model_file_path =
      fsLookup fs2 mta.trained_model_file_path)
    (h3 : fsLookup fs1 cfg.best_model_path = fsLookup fs2 cfg.best_model_path) :
    (evaluateModel env cfg dia mta fs1).map (fun t => t.2.2) =
      (evaluateModel env cfg dia mta fs2).map (fun t => t.2.2) := by
  unfold evaluateModel
  rw [h1, h2, h3]
  cases evalCore env (fsLookup fs2 dia.test_file_path)
      (fsLookup fs2 mta.trained_model_file_path)
      (fsLookup fs2 cfg.best_model_path) with
  | error e => rfl
  | ok pr => rfl

/-! ### C10: the report is always written, and before any promotion copy -/

/-- C10: the external-write trace of every completed run starts with the
report write — on accepted and rejected runs alike — and contains the
promotion copy exactly on accepted runs, strictly after the report write. -/
theorem c10_report_write_precedes_copy {M : Type} (env : PipelineEnv M)
    (cfg : ModelEvaluationConfig) (dia : DataIngestionArtifact)
    (mta : ModelTrainerArtifact) (fs fs' : FileSys) (ev : List EvalEvent)
    (art : ModelEvaluationArtifact)
    (h : initiateModelEvaluation env cfg dia mta fs = Except.ok (fs', ev, art)) :
    ev = if art.is_model_accepted then
        [EvalEvent.reportWrite cfg.report_path,
          EvalEvent.modelCopy mta.trained_model_file_path cfg.best_model_path]
      else [EvalEvent.reportWrite cfg.report_path] := by
  have h' := wrapMyException_ok h
  cases he : evaluateModel env cfg dia mta fs with
  | error e => rw [he] at h'; exact absurd h' (by simp)
  | ok out =>
    rw [he] at h'
    obtain ⟨fs1, ev1, resp⟩ := out
    dsimp only at h'
    obtain ⟨tm, bm, hout, -⟩ := evaluateModel_ok_inv he
    have hev1 : ev1 = [EvalEvent.reportWrite cfg.report_path] :=
      congrArg (fun t => t.2.1) hout
    cases hsc : (if resp.is_model_accepted = true then
        shutilCopy fs1 mta.trained_model_file_path cfg.best_model_path
      else Except.ok (fs1, [])) with
    | error e => rw [hsc] at h'; exact absurd h' (by simp)
    | ok out2 =>
      rw [hsc] at h'
      obtain ⟨fs2, ev2⟩ := out2
      dsimp only at h'
      injection h' with h2
      have hev : ev = ev1 ++ ev2 := (congrArg (fun t => t.2.1) h2).symm
      have hart : art = { is_model_accepted := resp.is_model_accepted
                          report_path := cfg.report_path
                          best_model_path := cfg.best_model_path
                          trained_model_path := mta.trained_model_file_path } :=
        (congrArg (fun t => t.2.2) h2).symm
      by_cases hacc : resp.is_model_accepted = true
      · rw [if_pos hacc] at hsc
        obtain ⟨b, hne, hlook, hfs2, hev2⟩ := shutilCopy_ok_inv hsc
        rw [hev, hev1, hev2, hart]
        dsimp only
        rw [hacc]
        rfl
      · rw [if_neg hacc] at hsc
        injection hsc with h3
        have hev2 : ev2 = [] := (congrArg (fun t => t.2) h3).symm
        have haccf : resp.is_model_accepted = false := by
          revert hacc
          cases resp.is_model_accepted <;> simp
        rw [hev, hev1, hev2, hart]
        dsimp only
        rw [haccf]
        rfl

/-! ### C2: the best-model file changes exactly on acceptance -/

/-- C2: for every completed run whose trained-model and best-model paths
differ from the report path, if the run is accepted the best-model path
afterwards holds exactly the pre-run bytes of the trained-model artifact,
and if it is rejected the best-model path holds exactly its own pre-run
bytes (untouched). -/
theorem c2_promotion_frame {M : Type} (env : PipelineEnv M)
    (cfg : ModelEvaluationConfig) (dia : DataIngestionArtifact)
    (mta : ModelTrainerArtifact) (fs fs' : FileSys) (ev : List EvalEvent)
    (art : ModelEvaluationArtifact)
    (h : initiateModelEvaluation env cfg dia mta fs = Except.ok (fs', ev, art))
    (hrp1 : mta.trained_model_file_path ≠ cfg.report_path)
    (hrp2 : cfg.best_model_path ≠ cfg.report_path) :
    (art.is_model_accepted = true →
        fsLookup fs' cfg.best_model_path =
          fsLookup fs mta.trained_model_file_path) ∧
      (art.is_model_accepted = false →
        fsLookup fs' cfg.best_model_path = fsLookup fs cfg.best_model_path) := by
  have h' := wrapMyException_ok h
  cases he : evaluateModel env cfg dia mta fs with
  | error e => rw [he] at h'; exact absurd h' (by simp)
  | ok out =>
    rw [he] at h'
    obtain ⟨fs1, ev1, resp⟩ := out
    dsimp only at h'
    obtain ⟨tm, bm, hout, -⟩ := evaluateModel_ok_inv he
    have hfs1 : fs1 = fsWrite fs cfg.report_path (env.encodeReport (mkReport tm bm)) :=
      congrArg (fun t => t.1) hout
    cases hsc : (if resp.is_model_accepted = true then
        shutilCopy fs1 mta.trained_model_file_path cfg.best_model_path
      else Except.ok (fs1, [])) with
    | error e => rw [hsc] at h'; exact absurd h' (by simp)
    | ok out2 =>
      rw [hsc] at h'
      obtain ⟨fs2, ev2⟩ := out2
      dsimp only at h'
      injection h' with h2
      have hfs' : fs' = fs2 := (congrArg (fun t => t.1) h2).symm
      have hart : art = { is_model_accepted := resp.is_model_accepted
                          report_path := cfg.report_path
                          best_model_path := cfg.best_model_path
                          trained_model_path := mta.trained_model_file_path } :=
        (congrArg (fun t => t.2.2) h2).symm
      by_cases hacc : resp.is_model_accepted = true
      · rw [if_pos hacc] at hsc
        obtain ⟨b, hne, hlook, hfs2, hev2⟩ := shutilCopy_ok_inv hsc
        constructor
        · intro _
          rw [hfs', hfs2, fsLookup_write_self]
          rw [hfs1, fsLookup_write_ne _ _ (Ne.symm hrp1)] at hlook
          exact hlook.symm
        · intro hf
          rw [hart] at hf
          dsimp only at hf
          rw [hacc] at hf
          exact absurd hf (by simp)
      · rw [if_neg hacc] at hsc
        injection hsc with h3
        have hfs2 : fs2 = fs1 := (congrArg (fun t => t.1) h3).symm
        constructor
        · intro ht
          rw [hart] at ht
          dsimp only at ht
          exact absurd ht hacc
        · intro _
          rw [hfs', hfs2, hfs1, fsLookup_write_ne _ _ (Ne.symm hrp2)]

/-! ### A concrete world for witnesses -/

/-- A one-row test dataset: one Female sample with positive target. -/
def wDf : DataFrame := [("Gender", [Cell.str "Female"]), ("Response", [Cell.int 1])]

/-- A concrete environment over `Bool` models: a deserialized model is the
flag "first byte is 1", and it predicts that constant class for every row. -/
def wEnv : PipelineEnv Bool :=
  { decodeCsv := fun _ => Except.ok wDf
    loadObject := fun b => Except.ok (b.headD 0 == 1)
    predict := fun m df =>
      Except.ok ((match df with
        | [] => ([] : List Cell)
        | c :: _ => c.2).map (fun _ => if m then (1 : Int) else 0))
    encodeReport := fun r => if r.model_accepted then [1] else [0] }

/-- A concrete configuration. -/
def wCfg : ModelEvaluationConfig :=
  { best_model_path := "best.pkl", report_path := "report.yaml" }

/-- A concrete ingestion artifact. -/
def wDia : DataIngestionArtifact := { test_file_path := "test.csv" }

/-- A concrete trainer artifact. -/
def wMta : ModelTrainerArtifact := { trained_model_file_path := "model.pkl" }

/-- A concrete pre-run file system: the test CSV and the trained model exist,
no best model does. -/
def wFs : FileSys := [("test.csv", [99]), ("model.pkl", [1])]

/-- Metrics of the trained model on the witness world: all ones. -/
def wTm : EvaluationMetrics := ⟨1, 1, 1, 1⟩

theorem wTrainedScores : trainedScores wEnv (some [1])
    [("Gender", [Cell.int 0])] [Cell.int 1] = Except.ok ([1], wTm) := by
  have h1 : countTP [1] [1] = 1 := by decide
  have h2 : countFP [1] [1] = 0 := by decide
  have h3 : countFN [1] [1] = 0 := by decide
  have h4 : countMatches [1] [1] = 1 := by decide
  have hf1 : f1Score [1] [1] = 1 := by norm_num [f1Score, h1, h2, h3]
  have hpr : precisionScore [1] [1] = 1 := by norm_num [precisionScore, h1, h2]
  have hre : recallScore [1] [1] = 1 := by norm_num [recallScore, h1, h3]
  have hac : accuracyScore [1] [1] = 1 := by norm_num [accuracyScore, h4]
  unfold trainedScores
  norm_num [readBytes, wEnv, labelsOfCells, cellLabel,
    f1ScoreE, precisionScoreE, recallScoreE, accuracyScoreE, hf1, hpr, hre, hac, wTm]

theorem wEvalCore : evalCore wEnv (some [99]) (some [1]) none =
    Except.ok (mkReport wTm baselineMetrics, mkResponse wTm baselineMetrics) := by
  have hp : prepareFeaturesAndTarget wEnv (some [99]) =
      Except.ok ([("Gender", [Cell.int 0])], [Cell.int 1]) := by decide
  unfold evalCore
  rw [hp]
  dsimp only
  rw [wTrainedScores]
  dsimp only
  rw [bestScores_unloadable wEnv (Or.inl rfl) [("Gender", [Cell.int 0])] [1]]

theorem wRunEval : evaluateModel wEnv wCfg wDia wMta wFs =
    Except.ok (fsWrite wFs "report.yaml" (wEnv.encodeReport (mkReport wTm baselineMetrics)),
      [EvalEvent.reportWrite "report.yaml"], mkResponse wTm baselineMetrics) := by
  have h1 : fsLookup wFs wDia.test_file_path = some [99] := by decide
  have h2 : fsLookup wFs wMta.trained_model_file_path = some [1] := by decide
  have h3 : fsLookup wFs wCfg.best_model_path = none := by decide
  unfold evaluateModel
  rw [h1, h2, h3, wEvalCore]
  rfl

theorem wAccepted : (mkResponse wTm baselineMetrics).is_model_accepted = true := by
  norm_num [mkResponse, wTm, baselineMetrics]

/-- The file system right after the witness run's report write. -/
def wFsReport : FileSys :=
  fsWrite wFs "report.yaml" (wEnv.encodeReport (mkReport wTm baselineMetrics))

/-- The file system at the end of the witness run: report written, trained
model promoted. -/
def wFsFinal : FileSys := fsWrite wFsReport "best.pkl" [1]

/-- The artifact the witness run returns. -/
def wArt : ModelEvaluationArtifact :=
  { is_model_accepted := true
    report_path := "report.yaml"
    best_model_path := "best.pkl"
    trained_model_path := "model.pkl" }

theorem wRunInitiate : initiateModelEvaluation wEnv wCfg wDia wMta wFs =
    Except.ok (wFsFinal,
      [EvalEvent.reportWrite "report.yaml", EvalEvent.modelCopy "model.pkl" "best.pkl"],
      wArt) := by
  have hsc : shutilCopy wFsReport "model.pkl" "best.pkl" =
      Except.ok (wFsFinal, [EvalEvent.modelCopy "model.pkl" "best.pkl"]) := by
    simp [shutilCopy, wFsReport, wFsFinal, fsWrite, fsLookup, wFs]
  unfold initiateModelEvaluation
  rw [wRunEval]
  dsimp only
  rw [wAccepted]
  rw [if_pos rfl]
  rw [show fsWrite wFs "report.yaml" (wEnv.encodeReport (mkReport wTm baselineMetrics)) =
    wFsReport from rfl]
  dsimp only [wMta, wCfg]
  rw [hsc]
  rfl

/-- C1 witness: the acceptance-strictness theorem applied to the concrete
witness run. -/
theorem c1_witness :
    ((mkResponse wTm baselineMetrics).is_model_accepted = true ↔
        (mkResponse wTm baselineMetrics).trained_model_f1 -
          (mkResponse wTm baselineMetrics).best_model_f1 > 0) ∧
      (mkResponse wTm baselineMetrics).difference =
        (mkResponse wTm baselineMetrics).trained_model_f1 -
          (mkResponse wTm baselineMetrics).best_model_f1 ∧
      ((mkResponse wTm baselineMetrics).trained_model_f1 =
          (mkResponse wTm baselineMetrics).best_model_f1 →
        (mkResponse wTm baselineMetrics).is_model_accepted = false) :=
  c1_acceptance_strict wEnv wCfg wDia wMta wFs _ _ _ wRunEval

/-- C3 witness: in the witness world the best-model path does not exist, and
the completed run reports exactly the baseline constants. -/
theorem c3_witness :
    (mkResponse wTm baselineMetrics).best_model_f1 = 0.4358042535618418 ∧
      (mkResponse wTm baselineMetrics).best_model_precision = 0.2874067214989923 ∧
      (mkResponse wTm baselineMetrics).best_model_recall = 0.9010416666666666 ∧
      (mkResponse wTm baselineMetrics).best_model_accuracy = 0.7132181615902937 :=
  (c3_missing_best_reports_baseline wEnv wCfg wDia wMta wFs
    (Or.inl (by decide))).2 _ _ _ wRunEval

/-- C7 witness: the schema theorem applied to the concrete witness run. -/
theorem c7_witness :
    fsLookup wFsReport wCfg.report_path = some (wEnv.encodeReport
      { trained_model := ⟨(mkResponse wTm baselineMetrics).trained_model_f1,
          (mkResponse wTm baselineMetrics).trained_model_precision,
          (mkResponse wTm baselineMetrics).trained_model_recall,
          (mkResponse wTm baselineMetrics).trained_model_accuracy⟩
        best_model := ⟨(mkResponse wTm baselineMetrics).best_model_f1,
          (mkResponse wTm baselineMetrics).best_model_precision,
          (mkResponse wTm baselineMetrics).best_model_recall,
          (mkResponse wTm baselineMetrics).best_model_accuracy⟩
        improvement := (mkResponse wTm baselineMetrics).difference
        model_accepted := (mkResponse wTm baselineMetrics).is_model_accepted }) :=
  c7_report_schema wEnv wCfg wDia wMta wFs _ _ _ wRunEval

/-- C9 witness: the determinism theorem applied to two file systems that
agree on the three input paths but differ elsewhere. -/
theorem c9_witness :
    (evaluateModel wEnv wCfg wDia wMta wFs).map (fun t => t.2.2) =
      (evaluateModel wEnv wCfg wDia wMta (wFs ++ [("extra", [5])])).map
        (fun t => t.2.2) :=
  c9_evaluation_deterministic wEnv wCfg wDia wMta wFs (wFs ++ [("extra", [5])])
    (by decide) (by decide) (by decide)

/-- C10 witness: the trace theorem applied to the concrete witness run. -/
theorem c10_witness :
    [EvalEvent.reportWrite "report.yaml", EvalEvent.modelCopy "model.pkl" "best.pkl"] =
      if wArt.is_model_accepted then
        [EvalEvent.reportWrite wCfg.report_path,
          EvalEvent.modelCopy wMta.trained_model_file_path wCfg.best_model_path]
      else [EvalEvent.reportWrite wCfg.report_path] :=
  c10_report_write_precedes_copy wEnv wCfg wDia wMta wFs _ _ _ wRunInitiate

/-- C2 witness: the promotion-frame theorem applied to the concrete witness
run (an accepted run with distinct configured paths). -/
theorem c2_witness :
    (wArt.is_model_accepted = true →
        fsLookup wFsFinal wCfg.best_model_path =
          fsLookup wFs wMta.trained_model_file_path) ∧
      (wArt.is_model_accepted = false →
        fsLookup wFsFinal wCfg.best_model_path = fsLookup wFs wCfg.best_model_path) :=
  c2_promotion_frame wEnv wCfg wDia wMta wFs _ _ _ wRunInitiate
    (by decide) (by decide)
